import Mathlib

/-!
Shallow embedding of the GitHub-webhook ingestion and completion-detection
pipeline of the LinkedAuto repository (`app/api/v1/webhooks.py`, with its
collaborators from `app/services/github_service.py` and
`app/models/database.py`).

Conventions of the embedding:
* Raw HTTP bodies and keys are byte lists (`List Nat`, each element < 256 by
  construction).
* The Python standard-library leaves (`hashlib.sha256`, `hmac`, `json`,
  `str()`, UTF-8 encoding) are implemented here following their documented
  behaviour, since the handler's visible behaviour depends on them.
* Network calls and other fallible external collaborators are injected as
  `Except String` values: `Except.error e` stands for a raised exception
  whose `str()` is `e`.
* An HTTP 200 response with a JSON dictionary body is `HandlerResult.ok`;
  a raised `HTTPException(status_code, detail)` is `HandlerResult.httpError`;
  an uncaught Python exception (which FastAPI turns into a 500) is
  `HandlerResult.pyError`.
-/

set_option maxRecDepth 100000

/-! ### Bytes, 32-bit words, SHA-256 (`hashlib.sha256`) -/

def w32 (x : Nat) : Nat := x % 4294967296

def add32 (a b : Nat) : Nat := (a + b) % 4294967296

def rotr32 (x n : Nat) : Nat := w32 ((x >>> n) ||| (x <<< (32 - n)))

def bigSigma0 (x : Nat) : Nat := (rotr32 x 2) ^^^ (rotr32 x 13) ^^^ (rotr32 x 22)

def bigSigma1 (x : Nat) : Nat := (rotr32 x 6) ^^^ (rotr32 x 11) ^^^ (rotr32 x 25)

def smallSigma0 (x : Nat) : Nat := (rotr32 x 7) ^^^ (rotr32 x 18) ^^^ (x >>> 3)

def smallSigma1 (x : Nat) : Nat := (rotr32 x 17) ^^^ (rotr32 x 19) ^^^ (x >>> 10)

def chF (x y z : Nat) : Nat := (x &&& y) ^^^ ((x ^^^ 4294967295) &&& z)

def majF (x y z : Nat) : Nat := (x &&& y) ^^^ (x &&& z) ^^^ (y &&& z)

def sha256K : List Nat :=
  [1116352408, 1899447441, 3049323471, 3921009573,
   961987163, 1508970993, 2453635748, 2870763221,
   3624381080, 310598401, 607225278, 1426881987,
   1925078388, 2162078206, 2614888103, 3248222580,
   3835390401, 4022224774, 264347078, 604807628,
   770255983, 1249150122, 1555081692, 1996064986,
   2554220882, 2821834349, 2952996808, 3210313671,
   3336571891, 3584528711, 113926993, 338241895,
   666307205, 773529912, 1294757372, 1396182291,
   1695183700, 1986661051, 2177026350, 2456956037,
   2730485921, 2820302411, 3259730800, 3345764771,
   3516065817, 3600352804, 4094571909, 275423344,
   430227734, 506948616, 659060556, 883997877,
   958139571, 1322822218, 1537002063, 1747873779,
   1955562222, 2024104815, 2227730452, 2361852424,
   2428436474, 2756734187, 3204031479, 3329325298]

/-- Merkle–Damgård padding: append a 0x80 byte, zero bytes up to 56 mod 64,
then the bit length in 8 big-endian bytes. -/
def padMessage (msg : List Nat) : List Nat :=
  let L := msg.length
  let padZeros := (119 - L % 64) % 64
  msg ++ [128] ++ List.replicate padZeros 0 ++
    (List.range 8).map (fun i => (L * 8) >>> (8 * (7 - i)) % 18446744073709551616 % 256)

/-- Split a byte list into 64-byte blocks (fuel-driven so that it reduces in
the kernel; called with fuel equal to the list length). -/
def toBlocksF : Nat → List Nat → List (List Nat)
  | 0, _ => []
  | _, [] => []
  | fuel + 1, l => l.take 64 :: toBlocksF fuel (l.drop 64)

/-- Big-endian 4-byte groups to 32-bit words. -/
def bytesToWords : List Nat → List Nat
  | b0 :: b1 :: b2 :: b3 :: rest =>
      (((b0 * 256 + b1) * 256 + b2) * 256 + b3) :: bytesToWords rest
  | _ => []

def extendStep (ws : List Nat) : List Nat :=
  let n := ws.length
  ws ++ [add32 (add32 (smallSigma1 (ws.getD (n - 2) 0)) (ws.getD (n - 7) 0))
          (add32 (smallSigma0 (ws.getD (n - 15) 0)) (ws.getD (n - 16) 0))]

/-- Extend the 16 words of a block to the 64-word message schedule. -/
def extendWords (ws : List Nat) : List Nat :=
  (List.range 48).foldl (fun acc _ => extendStep acc) ws

structure H8 where
  a : Nat
  b : Nat
  c : Nat
  d : Nat
  e : Nat
  f : Nat
  g : Nat
  h : Nat

def compressStep (st : H8) (wk : Nat × Nat) : H8 :=
  let t1 := add32 st.h (add32 (bigSigma1 st.e) (add32 (chF st.e st.f st.g) (add32 wk.1 wk.2)))
  let t2 := add32 (bigSigma0 st.a) (majF st.a st.b st.c)
  ⟨add32 t1 t2, st.a, st.b, st.c, add32 st.d t1, st.e, st.f, st.g⟩

def compressBlock (st : H8) (block : List Nat) : H8 :=
  let ws := extendWords (bytesToWords block)
  let fin := (ws.zip sha256K).foldl compressStep st
  ⟨add32 st.a fin.a, add32 st.b fin.b, add32 st.c fin.c, add32 st.d fin.d,
   add32 st.e fin.e, add32 st.f fin.f, add32 st.g fin.g, add32 st.h fin.h⟩

def sha256init : H8 :=
  ⟨1779033703, 3144134277, 1013904242, 2773480762,
   1359893119, 2600822924, 528734635, 1541459225⟩

def wordBytes (w : Nat) : List Nat :=
  [(w >>> 24) % 256, (w >>> 16) % 256, (w >>> 8) % 256, w % 256]

/-- SHA-256 of a byte list, as the list of 32 digest bytes. -/
def sha256 (msg : List Nat) : List Nat :=
  let padded := padMessage msg
  let st := (toBlocksF padded.length padded).foldl compressBlock sha256init
  wordBytes st.a ++ wordBytes st.b ++ wordBytes st.c ++ wordBytes st.d ++
    wordBytes st.e ++ wordBytes st.f ++ wordBytes st.g ++ wordBytes st.h

/-! ### HMAC (`hmac.new(key, msg, hashlib.sha256)`) and hex digests -/

def hmacSha256 (key msg : List Nat) : List Nat :=
  let k0 := if key.length > 64 then sha256 key else key
  let kPad := k0 ++ List.replicate (64 - k0.length) 0
  sha256 ((kPad.map (fun b => b ^^^ 92)) ++ sha256 ((kPad.map (fun b => b ^^^ 54)) ++ msg))

def hexDigit (n : Nat) : Char :=
  if n < 10 then Char.ofNat (48 + n) else Char.ofNat (87 + n)

/-- Lowercase hex rendering of a byte list (`.hexdigest()`). -/
def hexdigest (bytes : List Nat) : String :=
  ⟨bytes.flatMap (fun b => [hexDigit (b / 16), hexDigit (b % 16)])⟩

/-- UTF-8 encoding of one code point (`str.encode()` for one character). -/
def utf8Char (c : Char) : List Nat :=
  let n := c.toNat
  if n < 128 then [n]
  else if n < 2048 then [192 + n / 64, 128 + n % 64]
  else if n < 65536 then [224 + n / 4096, 128 + (n / 64) % 64, 128 + n % 64]
  else [240 + n / 262144, 128 + (n / 4096) % 64, 128 + (n / 64) % 64, 128 + n % 64]

def utf8Bytes (s : String) : List Nat := s.data.flatMap utf8Char

/-! ### JSON values (`json.loads` / `json.dumps` of the Python standard library)

Floating-point literals and `\u` escapes for surrogate pairs are not needed
by any payload considered here; the parser rejects them (such inputs are
outside every statement below). -/

inductive Json where
  | null : Json
  | bool (b : Bool) : Json
  | num (n : Int) : Json
  | str (s : String) : Json
  | arr (xs : List Json) : Json
  | obj (kvs : List (String × Json)) : Json

mutual

def Json.size : Json → Nat
  | .null => 1
  | .bool _ => 1
  | .num _ => 1
  | .str _ => 1
  | .arr xs => 1 + Json.sizeElems xs
  | .obj kvs => 1 + Json.sizeFields kvs

def Json.sizeElems : List Json → Nat
  | [] => 1
  | x :: xs => 1 + Json.size x + Json.sizeElems xs

def Json.sizeFields : List (String × Json) → Nat
  | [] => 1
  | (_, v) :: kvs => 1 + Json.size v + Json.sizeFields kvs

end

/-- `d.get(k)` on a parsed JSON dictionary (`None` when absent or not a dict). -/
def Json.getField : Json → String → Option Json
  | .obj kvs, k => (kvs.find? (fun p => p.1 == k)).map (fun p => p.2)
  | _, _ => none

/-- Python truthiness of a parsed JSON value. -/
def Json.truthy : Json → Bool
  | .null => false
  | .bool b => b
  | .num n => n != 0
  | .str s => s ≠ ""
  | .arr xs => !xs.isEmpty
  | .obj kvs => !kvs.isEmpty

/-! #### Serialization (`json.dumps` with default options) -/

def toHex4 (n : Nat) : String :=
  ⟨[hexDigit (n / 4096 % 16), hexDigit (n / 256 % 16), hexDigit (n / 16 % 16),
    hexDigit (n % 16)]⟩

/-- JSON string escaping with `ensure_ascii=True` (the `json.dumps` default). -/
def jsonEscapeChar (c : Char) : String :=
  if c == '"' then "\\\""
  else if c == '\\' then "\\\\"
  else if c == '\n' then "\\n"
  else if c == '\t' then "\\t"
  else if c == '\r' then "\\r"
  else if c.toNat == 8 then "\\b"
  else if c.toNat == 12 then "\\f"
  else if c.toNat > 65535 then
    "\\u" ++ toHex4 (55296 + (c.toNat - 65536) / 1024) ++
      "\\u" ++ toHex4 (56320 + (c.toNat - 65536) % 1024)
  else if c.toNat < 32 || c.toNat > 126 then "\\u" ++ toHex4 c.toNat
  else c.toString

def jsonEscape (s : String) : String :=
  "\"" ++ String.join (s.data.map jsonEscapeChar) ++ "\""

/-- Work items for the fuel-driven serializer walk. -/
inductive DVal where
  | v (j : Json)
  | elems (xs : List Json)
  | fields (kvs : List (String × Json))

/-- `json.dumps` body, structurally recursive on fuel so that it reduces in
the kernel; the fuel passed by `json_dumps` always suffices. -/
def dumpsD : Nat → DVal → String
  | 0, _ => ""
  | fuel + 1, .v j =>
    match j with
    | .null => "null"
    | .bool true => "true"
    | .bool false => "false"
    | .num n => toString n
    | .str s => jsonEscape s
    | .arr xs => "[" ++ dumpsD fuel (.elems xs) ++ "]"
    | .obj kvs => "\x7b" ++ dumpsD fuel (.fields kvs) ++ "\x7d"
  | _ + 1, .elems [] => ""
  | fuel + 1, .elems [x] => dumpsD fuel (.v x)
  | fuel + 1, .elems (x :: y :: rest) =>
      dumpsD fuel (.v x) ++ ", " ++ dumpsD fuel (.elems (y :: rest))
  | _ + 1, .fields [] => ""
  | fuel + 1, .fields [(k, v)] => jsonEscape k ++ ": " ++ dumpsD fuel (.v v)
  | fuel + 1, .fields ((k, v) :: m :: rest) =>
      jsonEscape k ++ ": " ++ dumpsD fuel (.v v) ++ ", " ++ dumpsD fuel (.fields (m :: rest))

/-- `json.dumps(value)` with the default separators. -/
def json_dumps (j : Json) : String := dumpsD (Json.size j) (.v j)

/-- Python `str()` of a parsed JSON value: container rendering (string
escaping inside `repr` is elided; no statement below depends on it). -/
def pyReprD : Nat → DVal → String
  | 0, _ => ""
  | fuel + 1, .v j =>
    match j with
    | .null => "None"
    | .bool true => "True"
    | .bool false => "False"
    | .num n => toString n
    | .str s => "'" ++ s ++ "'"
    | .arr xs => "[" ++ pyReprD fuel (.elems xs) ++ "]"
    | .obj kvs => "\x7b" ++ pyReprD fuel (.fields kvs) ++ "\x7d"
  | _ + 1, .elems [] => ""
  | fuel + 1, .elems [x] => pyReprD fuel (.v x)
  | fuel + 1, .elems (x :: y :: rest) =>
      pyReprD fuel (.v x) ++ ", " ++ pyReprD fuel (.elems (y :: rest))
  | _ + 1, .fields [] => ""
  | fuel + 1, .fields [(k, v)] => "'" ++ k ++ "': " ++ pyReprD fuel (.v v)
  | fuel + 1, .fields ((k, v) :: m :: rest) =>
      "'" ++ k ++ "': " ++ pyReprD fuel (.v v) ++ ", " ++ pyReprD fuel (.fields (m :: rest))

/-- Python `str()` of a parsed JSON value. -/
def pyStr : Json → String
  | .str s => s
  | .null => "None"
  | .bool true => "True"
  | .bool false => "False"
  | .num n => toString n
  | .arr xs => pyReprD (Json.size (.arr xs)) (.v (.arr xs))
  | .obj kvs => pyReprD (Json.size (.obj kvs)) (.v (.obj kvs))

/-! #### Parsing (`json.loads`) -/

def isWsChar (c : Char) : Bool := c == ' ' || c == '\t' || c == '\n' || c == '\r'

def skipWs : List Char → List Char
  | [] => []
  | c :: cs => if isWsChar c then skipWs cs else c :: cs

def hexVal (c : Char) : Option Nat :=
  if '0' ≤ c ∧ c ≤ '9' then some (c.toNat - 48)
  else if 'a' ≤ c ∧ c ≤ 'f' then some (c.toNat - 87)
  else if 'A' ≤ c ∧ c ≤ 'F' then some (c.toNat - 55)
  else none

def unescapeChar (e : Char) : Option Char :=
  if e == '"' then some '"'
  else if e == '\\' then some '\\'
  else if e == '/' then some '/'
  else if e == 'b' then some (Char.ofNat 8)
  else if e == 'f' then some (Char.ofNat 12)
  else if e == 'n' then some '\n'
  else if e == 'r' then some '\r'
  else if e == 't' then some '\t'
  else none

/-- Body of a JSON string literal up to its closing quote. -/
def parseStringAux : List Char → Option (List Char × List Char)
  | [] => none
  | '\\' :: 'u' :: h1 :: h2 :: h3 :: h4 :: rest => do
      let v1 ← hexVal h1
      let v2 ← hexVal h2
      let v3 ← hexVal h3
      let v4 ← hexVal h4
      let n := ((v1 * 16 + v2) * 16 + v3) * 16 + v4
      if 55296 ≤ n ∧ n < 57344 then none
      else (parseStringAux rest).map (fun p => (Char.ofNat n :: p.1, p.2))
  | '\\' :: e :: rest => do
      let ec ← unescapeChar e
      (parseStringAux rest).map (fun p => (ec :: p.1, p.2))
  | c :: rest =>
      if c == '"' then some ([], rest)
      else if c.toNat < 32 then none
      else (parseStringAux rest).map (fun p => (c :: p.1, p.2))

def digitsSpan : List Char → (List Char × List Char)
  | [] => ([], [])
  | c :: rest =>
      if '0' ≤ c ∧ c ≤ '9' then
        let p := digitsSpan rest
        (c :: p.1, p.2)
      else ([], c :: rest)

/-- Integer literals (floating-point forms are unsupported and rejected). -/
def parseNumber (cs : List Char) : Option (Json × List Char) :=
  let sgn := match cs with
    | c :: rest => if c == '-' then (true, rest) else (false, cs)
    | [] => (false, ([] : List Char))
  match digitsSpan sgn.2 with
  | ([], _) => none
  | (d :: ds, rest) =>
    if d == '0' ∧ ds ≠ [] then none
    else
      let ok : Option (Json × List Char) :=
        let n : Nat := (d :: ds).foldl (fun a c => a * 10 + (c.toNat - 48)) 0
        some (.num (if sgn.1 then -(n : Int) else (n : Int)), rest)
      match rest with
      | c :: _ => if c == '.' ∨ c == 'e' ∨ c == 'E' then none else ok
      | [] => ok

inductive PMode where
  | val
  | elems
  | members

inductive PRes where
  | v (j : Json)
  | list (xs : List Json)
  | fields (kvs : List (String × Json))

/-- Recursive-descent JSON parser, fuel-driven so that it is structurally
recursive and reduces in the kernel (`json_loads` passes sufficient fuel). -/
def parseP : Nat → PMode → List Char → Option (PRes × List Char)
  | 0, _, _ => none
  | fuel + 1, .val, cs =>
    (match skipWs cs with
     | 'n' :: 'u' :: 'l' :: 'l' :: r => some (.v .null, r)
     | 't' :: 'r' :: 'u' :: 'e' :: r => some (.v (.bool true), r)
     | 'f' :: 'a' :: 'l' :: 's' :: 'e' :: r => some (.v (.bool false), r)
     | '"' :: r => (parseStringAux r).map (fun p => (.v (.str ⟨p.1⟩), p.2))
     | '[' :: r =>
       (match skipWs r with
        | ']' :: r2 => some (.v (.arr []), r2)
        | r2 =>
          match parseP fuel .elems r2 with
          | some (.list xs, r3) => some (.v (.arr xs), r3)
          | _ => none)
     | c :: r =>
       if c.toNat == 123 then
         (match skipWs r with
          | c2 :: r2 =>
            if c2.toNat == 125 then some (.v (.obj []), r2)
            else
              (match parseP fuel .members (c2 :: r2) with
               | some (.fields kvs, r3) => some (.v (.obj kvs), r3)
               | _ => none)
          | [] => none)
       else if c == '-' ∨ ('0' ≤ c ∧ c ≤ '9') then
         (parseNumber (c :: r)).map (fun p => (.v p.1, p.2))
       else none
     | [] => none)
  | fuel + 1, .elems, cs =>
    (match parseP fuel .val cs with
     | some (.v v, r1) =>
       (match skipWs r1 with
        | c :: r2 =>
          if c == ',' then
            (match parseP fuel .elems r2 with
             | some (.list xs, r3) => some (.list (v :: xs), r3)
             | _ => none)
          else if c == ']' then some (.list [v], r2)
          else none
        | [] => none)
     | _ => none)
  | fuel + 1, .members, cs =>
    (match skipWs cs with
     | '"' :: r =>
       (match parseStringAux r with
        | some (k, r1) =>
          (match skipWs r1 with
           | ':' :: r2 =>
             (match parseP fuel .val r2 with
              | some (.v v, r3) =>
                (match skipWs r3 with
                 | c :: r4 =>
                   if c == ',' then
                     (match parseP fuel .members r4 with
                      | some (.fields kvs, r5) => some (.fields ((⟨k⟩, v) :: kvs), r5)
                      | _ => none)
                   else if c.toNat == 125 then some (.fields [(⟨k⟩, v)], r4)
                   else none
                 | [] => none)
              | _ => none)
           | _ => none)
        | none => none)
     | _ => none)

/-- `json.loads` (returns `none` where Python raises `JSONDecodeError`). -/
def json_loads (s : String) : Option Json :=
  match parseP (2 * s.data.length + 2) .val s.data with
  | some (.v j, rest) => if (skipWs rest).isEmpty then some j else none
  | _ => none

/-! ### Data model (`app/models/database.py`) and collaborator interfaces -/

/-- The fields of `User` read by the webhook pipeline; `github_access_token`
is `Text` and nullable in practice, so it is an optional string. -/
structure UserRec where
  github_access_token : Option String
deriving DecidableEq

/-- The fields of `Repository` read by the webhook pipeline. -/
structure RepoRec where
  id : Nat
  github_repo_id : String
  full_name : String
  is_monitored : Bool
  user : UserRec
deriving DecidableEq

/-- A `WebhookEvent` row (its generated primary key and timestamp omitted). -/
structure WebhookEventRec where
  repository_id : Nat
  event_type : String
  payload : String
  processed : Bool
deriving DecidableEq

/-- The database state touched by the handler: the repository registry and
the append-only webhook event log. -/
structure Db where
  repos : List RepoRec
  events : List WebhookEventRec
deriving DecidableEq

/-- `db.query(Repository).filter(github_repo_id == gid, is_monitored == True).first()`. -/
def findMonitored (db : Db) (gid : String) : Option RepoRec :=
  (db.repos.filter (fun r => r.github_repo_id == gid && r.is_monitored)).head?

/-- One collaborator call observable from outside the handler. -/
inductive CallTag where
  | hmac
  | readmeFetch
  | metadataFetch
  | summarize
deriving DecidableEq

/-- Results of the fallible external collaborators for one handler run:
`decrypt` is `token_encryptor.decrypt_token`; `readmeHttp` is the HTTP
request made inside `GitHubService.get_repo_readme` and `readmeB64` its
base64+UTF-8 content decoding; `metadata` is the outcome of
`GitHubService.get_repo_metadata`; `summarize` is
`FreeSummarizationService.summarize_repository` applied to the metadata and
a tone. `Except.error e` stands for a raised exception with message `e`. -/
structure Collaborators where
  decrypt : String → Except String String
  readmeHttp : Except String Json
  readmeB64 : String → Except String String
  metadata : Except String Json
  summarize : Json → String → Except String String

/-! ### `GitHubService.get_repo_readme` (`app/services/github_service.py` 84–92)

The whole body is wrapped in `try: ... except Exception: return ""`:
a failed request, a missing `"content"` key, or a failed decode all
yield the empty string. -/

def get_repo_readme (http : Except String Json) (b64 : String → Except String String) : String :=
  match http with
  | .error _ => ""
  | .ok resp =>
    match resp.getField "content" with
    | none => ""
    | some v =>
      match v with
      | .str s =>
        (match b64 s with
         | .ok text => text
         | .error _ => "")
      | _ => ""

/-! ### Signature verification (`webhooks.py` 20–27) -/

def isAsciiStr (s : String) : Bool := s.data.all (fun c => c.toNat < 128)

/-- `hmac.compare_digest` on two `str` arguments: constant-time equality,
except that non-ASCII arguments raise `TypeError`. -/
def compare_digest (a b : String) : Except String Bool :=
  if isAsciiStr a && isAsciiStr b then .ok (a == b)
  else .error "comparing strings with non-ASCII characters is not supported"

/-- The signature the handler expects for a body and secret:
`"sha256=" + hmac.new(secret.encode(), request_body, hashlib.sha256).hexdigest()`. -/
def mkExpectedSignature (secret : String) (request_body : List Nat) : String :=
  "sha256=" ++ hexdigest (hmacSha256 (utf8Bytes secret) request_body)

/-- `verify_webhook_signature(request_body, signature, secret)`. -/
def verify_webhook_signature (request_body : List Nat) (signature : String)
    (secret : String) : Except String Bool :=
  compare_digest (mkExpectedSignature secret request_body) signature

/-! ### Completion detection and README-touch detection (`webhooks.py` 83–92, 107) -/

/-- Python's `needle in hay` substring test. -/
def listContains (needle : List Char) (hay : List Char) : Bool :=
  needle.isPrefixOf hay ||
    match hay with
    | [] => false
    | _ :: t => listContains needle t

/-- Python's `str.lower()` (ASCII range; no path below involves letters
outside it). -/
def pyLower (s : String) : String := ⟨s.data.map Char.toLower⟩

/-- `"Completed" in readme_content` (`webhooks.py` 107), the completion marker
scan. -/
def isCompleted (text : String) : Bool := listContains "Completed".data text.data

/-- Python iteration over a parsed JSON value (`for x in v` / `list.extend(v)`):
lists yield elements, strings yield one-character strings, dicts yield keys,
everything else raises `TypeError`. -/
def pyIterable : Json → Except String (List Json)
  | .arr xs => .ok xs
  | .str s => .ok (s.data.map (fun ch => .str ch.toString))
  | .obj kvs => .ok (kvs.map (fun p => .str p.1))
  | _ => .error "TypeError"

/-- `commit.get("modified", [])` and `commit.get("added", [])` extended into
the running file list (`webhooks.py` 85–87). -/
def commitFiles : Json → Except String (List Json)
  | .obj kvs => do
      let ms ← pyIterable (((Json.obj kvs).getField "modified").getD (.arr []))
      let addedL ← pyIterable (((Json.obj kvs).getField "added").getD (.arr []))
      pure (ms ++ addedL)
  | _ => .error "AttributeError"

def collectModifiedFiles : List Json → Except String (List Json)
  | [] => .ok []
  | c :: rest => do
      let fs ← commitFiles c
      let others ← collectModifiedFiles rest
      pure (fs ++ others)

/-- `any("readme" in file.lower() for file in modified_files)` (`webhooks.py`
89); the generator is lazy, so a non-string element past the first hit is
never reached. -/
def readmeModifiedCheck : List Json → Except String Bool
  | [] => .ok false
  | f :: rest =>
    match f with
    | .str s =>
      if listContains "readme".data (pyLower s).data then .ok true
      else readmeModifiedCheck rest
    | _ => .error "AttributeError"

/-- Lines 83–89 of `webhooks.py` as one function of the payload. -/
def readme_modified_of (payload : Json) : Except String Bool := do
  let cmts ← pyIterable ((payload.getField "commits").getD (.arr []))
  let files ← collectModifiedFiles cmts
  readmeModifiedCheck files

/-! ### The webhook handler (`webhooks.py` 30–139) -/

/-- The JSON bodies the handler can return with HTTP 200. -/
inductive RespBody where
  | ignoredEvent (event : Option String)
  | ignoredNotMonitored
  | readmeNotModified
  | errorNoToken
  | completedKeywordFalse
  | summarizationTriggered
  | errorMsg (msg : String)
deriving DecidableEq

/-- `ok` is an HTTP 200 response carrying a JSON body; `httpError` a raised
`HTTPException(status, detail)`; `pyError` an uncaught Python exception
(surfaced by FastAPI as a 500). -/
inductive HandlerResult where
  | ok (body : RespBody)
  | httpError (status : Nat) (detail : String)
  | pyError (msg : String)
deriving DecidableEq

structure WebhookOutcome where
  result : HandlerResult
  db : Db
  calls : List CallTag
deriving DecidableEq

/-- Python truthiness of an optional string column (`None` and `""` are
falsy). -/
def pyTruthyOptStr : Option String → Bool
  | none => false
  | some s => s ≠ ""

/-- `process_completed_project(db, repo, access_token)` (`webhooks.py`
121–139): fetch metadata, summarize with tone `"professional"`; its own
`except` logs and re-raises, so any failure propagates to the caller. -/
def process_completed_project (c : Collaborators) : Except String Unit × List CallTag :=
  match c.metadata with
  | .error e => (.error e, [.metadataFetch])
  | .ok m =>
    match c.summarize m "professional" with
    | .error e => (.error e, [.metadataFetch, .summarize])
    | .ok _ => (.ok (), [.metadataFetch, .summarize])

/-- The `try:` block of `webhooks.py` 95–118: token presence check, token
decryption, README fetch, completion gate, orchestration; every exception
inside is caught and turned into a 200 `{"status": "error", "error": str(e)}`
response. -/
def github_webhook_tryBlock (repo : RepoRec) (db : Db) (c : Collaborators)
    (calls : List CallTag) : WebhookOutcome :=
  if !pyTruthyOptStr repo.user.github_access_token then
    ⟨.ok .errorNoToken, db, calls⟩
  else
    match c.decrypt (repo.user.github_access_token.getD "") with
    | .error e => ⟨.ok (.errorMsg e), db, calls⟩
    | .ok _accessToken =>
      let readme := get_repo_readme c.readmeHttp c.readmeB64
      let calls2 := calls ++ [.readmeFetch]
      if !isCompleted readme then ⟨.ok .completedKeywordFalse, db, calls2⟩
      else
        match process_completed_project c with
        | (.error e, pc) => ⟨.ok (.errorMsg e), db, calls2 ++ pc⟩
        | (.ok _, pc) => ⟨.ok .summarizationTriggered, db, calls2 ++ pc⟩

/-- Lines 82–118 of `webhooks.py`: README-touch analysis (outside the `try:`,
so its `TypeError`/`AttributeError` escape uncaught) and then the `try:`
block. -/
def github_webhook_afterLog (payload : Json) (repo : RepoRec) (db : Db)
    (c : Collaborators) (calls : List CallTag) : WebhookOutcome :=
  match readme_modified_of payload with
  | .error e => ⟨.pyError e, db, calls⟩
  | .ok false => ⟨.ok .readmeNotModified, db, calls⟩
  | .ok true => github_webhook_tryBlock repo db c calls

/-- Lines 64–80 of `webhooks.py`: the monitored-repository lookup and, on a
match, the event-log append (`event_type` is the value of the
`X-GitHub-Event` header, `payload` the `json.dumps` of the parsed body,
`processed` the column default `False`). -/
def github_webhook_lookup (payload : Json) (repoGithubId : String) (et : String)
    (db : Db) (c : Collaborators) (calls : List CallTag) : WebhookOutcome :=
  match findMonitored db repoGithubId with
  | none => ⟨.ok .ignoredNotMonitored, db, calls⟩
  | some repo =>
    let db2 : Db := ⟨db.repos, db.events ++ [⟨repo.id, et, json_dumps payload, false⟩]⟩
    github_webhook_afterLog payload repo db2 c calls

/-- Lines 50–71 of `webhooks.py`: event-type gate and repository-information
extraction. -/
def github_webhook_classify (eventHeader : Option String) (payload : Json)
    (db : Db) (c : Collaborators) (calls : List CallTag) : WebhookOutcome :=
  match eventHeader with
  | none => ⟨.ok (.ignoredEvent none), db, calls⟩
  | some et =>
    if et ≠ "push" then ⟨.ok (.ignoredEvent (some et)), db, calls⟩
    else
      match payload with
      | .obj _ =>
        (match (payload.getField "repository").getD (.obj []) with
         | .obj rkvs =>
           let repoData := Json.obj rkvs
           let fullNameVal := (repoData.getField "full_name").getD .null
           let repoGithubId := pyStr ((repoData.getField "id").getD (.str ""))
           if !fullNameVal.truthy || repoGithubId == "" then
             ⟨.httpError 400 "Missing repository information", db, calls⟩
           else github_webhook_lookup payload repoGithubId et db c calls
         | _ => ⟨.pyError "AttributeError", db, calls⟩)
      | _ => ⟨.pyError "AttributeError", db, calls⟩

/-- Lines 44–48 of `webhooks.py`: JSON parsing of the raw body. -/
def github_webhook_postSig (eventHeader : Option String) (body : String)
    (db : Db) (c : Collaborators) (calls : List CallTag) : WebhookOutcome :=
  match json_loads body with
  | none => ⟨.httpError 400 "Invalid JSON payload", db, calls⟩
  | some payload => github_webhook_classify eventHeader payload db c calls

/-- `github_webhook` (`webhooks.py` 30–118). The request is presented as its
decoded body string together with the two headers the handler reads; the
signature check of lines 40–42 runs only when the header is present and
non-empty (Python truthiness of `signature`). -/
def github_webhook (secret : String) (sigHeader : Option String)
    (eventHeader : Option String) (body : String) (db : Db)
    (c : Collaborators) : WebhookOutcome :=
  match sigHeader with
  | none => github_webhook_postSig eventHeader body db c []
  | some sig =>
    if sig = "" then github_webhook_postSig eventHeader body db c []
    else
      match verify_webhook_signature (utf8Bytes body) sig secret with
      | .error e => ⟨.pyError e, db, [.hmac]⟩
      | .ok false => ⟨.httpError 401 "Invalid signature", db, [.hmac]⟩
      | .ok true => github_webhook_postSig eventHeader body db c [.hmac]

/-! ### Concrete fixtures used by the closed instance checks below -/

def userW : UserRec := ⟨some "enc-token"⟩

def repoW : RepoRec := ⟨7, "123", "u/r", true, userW⟩

def dbW : Db := ⟨[repoW], []⟩

/-- Collaborators that all succeed; the decoded README contains the
completion marker. -/
def collabOk : Collaborators :=
  ⟨fun _ => .ok "tok", .ok (.obj [("content", .str "UHJvamVjdCBDb21wbGV0ZWQ=")]),
   fun _ => .ok "Project Completed", .ok (.obj [("name", .str "r")]),
   fun _ _ => .ok "a summary"⟩

/-- Collaborators that all raise. -/
def collabErr : Collaborators :=
  ⟨fun _ => .error "decrypt boom", .error "http boom", fun _ => .error "b64 boom",
   .error "metadata boom", fun _ _ => .error "summarize boom"⟩

def bodyE2E : String :=
  "\x7b\"repository\": \x7b\"full_name\": \"u/r\", \"id\": 123\x7d, \"commits\": [\x7b\"modified\": [\"README.md\"], \"added\": []\x7d]\x7d"

instance {e a : Type} [DecidableEq e] [DecidableEq a] : DecidableEq (Except e a) := fun x y =>
  match x, y with
  | .ok v, .ok w => if h : v = w then isTrue (by rw [h]) else isFalse (by simp [h])
  | .error v, .error w => if h : v = w then isTrue (by rw [h]) else isFalse (by simp [h])
  | .ok _, .error _ => isFalse (by simp)
  | .error _, .ok _ => isFalse (by simp)

structure CommitEntry where
  modified : List String
  added : List String

/-- The JSON shape of one entry of a push payload's commit list. -/
def commitJson (ce : CommitEntry) : Json :=
  .obj [("modified", .arr (ce.modified.map .str)), ("added", .arr (ce.added.map .str))]

def payloadReadme : Json :=
  .obj [("repository", .obj [("full_name", .str "u/r"), ("id", .num 123)]),
        ("commits", .arr [.obj [("modified", .arr [.str "README.md"]), ("added", .arr [])]])]

/-- Collaborators that succeed everywhere but decode a README without the
completion marker. -/
def collabNoMarker : Collaborators :=
  ⟨fun _ => .ok "tok", .ok (.obj [("content", .str "x")]),
   fun _ => .ok "all completed", .ok .null, fun _ _ => .ok "s"⟩

def commitsW : List CommitEntry := [⟨["README.md"], []⟩]

def payloadNoCommits : Json := .obj [("x", .num 0)]

def dbEmpty : Db := ⟨[], []⟩

def p1C6 : Json := .obj [("repository", .obj [("id", .num 1)])]

def p2C6 : Json := .obj [("repository", .obj [("full_name", .str "u/r")])]

/-- Collaborators whose README HTTP request and content decoding both fail. -/
def collabHttpFail : Collaborators :=
  ⟨fun _ => .ok "tok", .error "http boom", fun _ => .error "http boom",
   .ok .null, fun _ _ => .ok "s"⟩

def evW : WebhookEventRec := ⟨7, "push", "earlier", false⟩

def dbWithEvent : Db := ⟨[repoW], [evW]⟩

/-- Collaborators whose token decryption raises. -/
def collabDecryptFail : Collaborators :=
  ⟨fun _ => .error "decrypt boom", .ok .null, fun _ => .ok "",
   .ok .null, fun _ _ => .ok "s"⟩

def bodyC7 : String :=
  "\x7b\"repository\": \x7b\"full_name\": \"u/r\", \"id\": 123\x7d, \"commits\": [\x7b\"modified\": [\"README.md\"], \"added\": []\x7d]\x7d "

def storedC7 : String :=
  "\x7b\"repository\": \x7b\"full_name\": \"u/r\", \"id\": 123\x7d, \"commits\": [\x7b\"modified\": [\"README.md\"], \"added\": []\x7d]\x7d"

/-! ### Sanity checks against reference values and the spec scenario of section 8.7 -/

example : hexdigest (sha256 (utf8Bytes "abc")) =
    "ba7816bf8f01cfea414140de5dae2223b00361a396177a9cb410ff61f20015ad" := by decide

example : hexdigest (sha256 []) =
    "e3b0c44298fc1c149afbf4c8996fb92427ae41e4649b934ca495991b7852b855" := by decide

example : hexdigest (hmacSha256 [] []) =
    "b613679a0814d9ec772f95d778c35fc5ff1697c493715653c6c712144292c5ad" := by decide

example : hexdigest (hmacSha256 (utf8Bytes "key")
    (utf8Bytes "The quick brown fox jumps over the lazy dog")) =
    "f7bc83f430538424b13298e6aa6fb143ef4d59a14946175997479dbc2d1a3cd8" := by decide

example : json_dumps (.obj [("repository", .obj [("full_name", .str "u/r"), ("id", .num 1)]),
    ("commits", .arr [])]) =
    "\x7b\"repository\": \x7b\"full_name\": \"u/r\", \"id\": 1\x7d, \"commits\": []\x7d" := by
  decide

example : pyStr (.num 17) = "17" := by decide

example : pyStr (.obj [("a", .num 1)]) = "\x7b'a': 1\x7d" := by decide

example : json_loads "\x7b\"repository\": \x7b\"full_name\": \"u/r\", \"id\": 1\x7d, \"commits\": [] \x7d " =
    some (.obj [("repository", .obj [("full_name", .str "u/r"), ("id", .num 1)]),
      ("commits", .arr [])]) := by rfl

example : json_loads "[1, -2, null, true, \"a b\"]" =
    some (.arr [.num 1, .num (-2), .null, .bool true, .str "a b"]) := by rfl

example : json_loads "\x7b" = none := by rfl

example : json_loads "01" = none := by rfl

example : json_loads "" = none := by rfl

example : json_loads "1 2" = none := by rfl

example :
    github_webhook "s" none (some "push") bodyE2E dbW collabOk =
      ⟨.ok .summarizationTriggered,
       ⟨[repoW], [⟨7, "push", bodyE2E, false⟩]⟩,
       [.readmeFetch, .metadataFetch, .summarize]⟩ := by decide

/-! ### Helper lemmas -/

theorem listContains_correct (n h : List Char) : listContains n h = true ↔ n <:+: h := by
  induction h with
  | nil =>
    simp [listContains, List.isPrefixOf_iff_prefix]
  | cons c t ih =>
    rw [listContains]
    simp [ List.isPrefixOf_iff_prefix, ih, List.infix_cons_iff]

theorem hexDigit_ascii : ∀ n < 16, (hexDigit n).toNat < 128 := by decide

theorem wordBytes_lt (w : Nat) : ∀ b ∈ wordBytes w, b < 256 := by
  simp only [wordBytes, List.mem_cons, List.not_mem_nil, or_false]
  rintro b (h | h | h | h) <;> subst h <;> exact Nat.mod_lt _ (by omega)

theorem sha256_lt (msg : List Nat) : ∀ b ∈ sha256 msg, b < 256 := by
  intro b hb
  rw [sha256] at hb
  simp only [wordBytes, List.mem_append, List.mem_cons, List.not_mem_nil, or_false] at hb
  omega

theorem hmacSha256_lt (key msg : List Nat) : ∀ b ∈ hmacSha256 key msg, b < 256 := by
  intro b hb
  unfold hmacSha256 at hb
  exact sha256_lt _ b hb

theorem hexdigest_ascii (bytes : List Nat) (hb : ∀ b ∈ bytes, b < 256) :
    isAsciiStr (hexdigest bytes) = true := by
  simp only [isAsciiStr, hexdigest, List.all_eq_true, decide_eq_true_eq]
  intro c hc
  simp only [List.mem_flatMap, List.mem_cons, List.not_mem_nil, or_false] at hc
  obtain ⟨b, hbmem, hcc⟩ := hc
  have hlt := hb b hbmem
  rcases hcc with h | h <;> subst h <;> exact hexDigit_ascii _ (by omega)

theorem isAsciiStr_append (a b : String) :
    isAsciiStr (a ++ b) = (isAsciiStr a && isAsciiStr b) := by
  simp [isAsciiStr, String.data_append, List.all_append]

theorem mkExpectedSignature_ascii (secret : String) (body : List Nat) :
    isAsciiStr (mkExpectedSignature secret body) = true := by
  rw [mkExpectedSignature, isAsciiStr_append]
  rw [hexdigest_ascii _ (hmacSha256_lt _ _)]
  decide

theorem pcp_hmac_not_mem (c : Collaborators) :
    CallTag.hmac ∉ (process_completed_project c).2 := by
  unfold process_completed_project
  repeat' split
  all_goals simp

theorem tryBlock_db_eq (repo : RepoRec) (db : Db) (c : Collaborators)
    (calls : List CallTag) : (github_webhook_tryBlock repo db c calls).db = db := by
  simp only [github_webhook_tryBlock]
  repeat' split
  all_goals rfl

theorem tryBlock_result_ok (repo : RepoRec) (db : Db) (c : Collaborators)
    (calls : List CallTag) :
    ∃ b, (github_webhook_tryBlock repo db c calls).result = .ok b := by
  simp only [github_webhook_tryBlock]
  repeat' split
  all_goals exact ⟨_, rfl⟩

theorem tryBlock_calls_shape (repo : RepoRec) (db : Db) (c : Collaborators)
    (calls : List CallTag) :
    ∃ ex, (github_webhook_tryBlock repo db c calls).calls = calls ++ ex ∧
      CallTag.hmac ∉ ex := by
  have hpc := pcp_hmac_not_mem c
  simp only [github_webhook_tryBlock]
  repeat' split
  · exact ⟨[], by simp, by simp⟩
  · exact ⟨[], by simp, by simp⟩
  · exact ⟨[.readmeFetch], by simp, by simp⟩
  all_goals rename_i x e pc heq
  all_goals rw [heq] at hpc
  all_goals simp only at hpc
  all_goals exact ⟨[.readmeFetch] ++ pc, by simp, by
    simp only [List.mem_append, List.mem_cons, List.not_mem_nil] at hpc ⊢
    rintro (h | h) <;> simp_all⟩

theorem afterLog_db_eq (payload : Json) (repo : RepoRec) (db : Db)
    (c : Collaborators) (calls : List CallTag) :
    (github_webhook_afterLog payload repo db c calls).db = db := by
  simp only [github_webhook_afterLog]
  repeat' split
  · rfl
  · rfl
  · exact tryBlock_db_eq ..

theorem afterLog_result_no_http (payload : Json) (repo : RepoRec) (db : Db)
    (c : Collaborators) (calls : List CallTag) (st : Nat) (d : String) :
    (github_webhook_afterLog payload repo db c calls).result ≠ .httpError st d := by
  simp only [github_webhook_afterLog]
  repeat' split
  · simp
  · simp
  · obtain ⟨b, hb⟩ := tryBlock_result_ok repo db c calls
    simp [hb]

theorem afterLog_calls_shape (payload : Json) (repo : RepoRec) (db : Db)
    (c : Collaborators) (calls : List CallTag) :
    ∃ ex, (github_webhook_afterLog payload repo db c calls).calls = calls ++ ex ∧
      CallTag.hmac ∉ ex := by
  simp only [github_webhook_afterLog]
  repeat' split
  · exact ⟨[], by simp, by simp⟩
  · exact ⟨[], by simp, by simp⟩
  · exact tryBlock_calls_shape ..

theorem lookup_db_shape (payload : Json) (gid et : String) (db : Db)
    (c : Collaborators) (calls : List CallTag) :
    (github_webhook_lookup payload gid et db c calls).db.repos = db.repos ∧
      ∃ new, (github_webhook_lookup payload gid et db c calls).db.events =
          db.events ++ new ∧ ∀ ev ∈ new, ev.processed = false := by
  simp only [github_webhook_lookup]
  split
  · exact ⟨rfl, [], by simp, by simp⟩
  · rename_i repo heq
    rw [afterLog_db_eq]
    exact ⟨rfl, [⟨repo.id, et, json_dumps payload, false⟩], by simp, by simp⟩

theorem lookup_result_ne_401 (payload : Json) (gid et : String) (db : Db)
    (c : Collaborators) (calls : List CallTag) (d : String) :
    (github_webhook_lookup payload gid et db c calls).result ≠ .httpError 401 d := by
  simp only [github_webhook_lookup]
  split
  · simp
  · apply afterLog_result_no_http

theorem lookup_calls_shape (payload : Json) (gid et : String) (db : Db)
    (c : Collaborators) (calls : List CallTag) :
    ∃ ex, (github_webhook_lookup payload gid et db c calls).calls = calls ++ ex ∧
      CallTag.hmac ∉ ex := by
  simp only [github_webhook_lookup]
  split
  · exact ⟨[], by simp, by simp⟩
  · exact afterLog_calls_shape ..

theorem classify_db_shape (eventHeader : Option String) (payload : Json) (db : Db)
    (c : Collaborators) (calls : List CallTag) :
    (github_webhook_classify eventHeader payload db c calls).db.repos = db.repos ∧
      ∃ new, (github_webhook_classify eventHeader payload db c calls).db.events =
          db.events ++ new ∧ ∀ ev ∈ new, ev.processed = false := by
  simp only [github_webhook_classify]
  repeat' split
  all_goals first
  | exact lookup_db_shape ..
  | exact ⟨rfl, [], by simp, by simp⟩

theorem classify_result_ne_401 (eventHeader : Option String) (payload : Json)
    (db : Db) (c : Collaborators) (calls : List CallTag) (d : String) :
    (github_webhook_classify eventHeader payload db c calls).result ≠
      .httpError 401 d := by
  simp only [github_webhook_classify]
  repeat' split
  all_goals first
  | apply lookup_result_ne_401
  | simp

theorem classify_calls_shape (eventHeader : Option String) (payload : Json)
    (db : Db) (c : Collaborators) (calls : List CallTag) :
    ∃ ex, (github_webhook_classify eventHeader payload db c calls).calls =
        calls ++ ex ∧ CallTag.hmac ∉ ex := by
  simp only [github_webhook_classify]
  repeat' split
  all_goals first
  | exact lookup_calls_shape ..
  | exact ⟨[], by simp, by simp⟩

theorem postSig_db_shape (eventHeader : Option String) (body : String) (db : Db)
    (c : Collaborators) (calls : List CallTag) :
    (github_webhook_postSig eventHeader body db c calls).db.repos = db.repos ∧
      ∃ new, (github_webhook_postSig eventHeader body db c calls).db.events =
          db.events ++ new ∧ ∀ ev ∈ new, ev.processed = false := by
  simp only [github_webhook_postSig]
  split
  · exact ⟨rfl, [], by simp, by simp⟩
  · exact classify_db_shape ..

theorem postSig_result_ne_401 (eventHeader : Option String) (body : String)
    (db : Db) (c : Collaborators) (calls : List CallTag) (d : String) :
    (github_webhook_postSig eventHeader body db c calls).result ≠
      .httpError 401 d := by
  simp only [github_webhook_postSig]
  split
  · simp
  · apply classify_result_ne_401

theorem postSig_calls_shape (eventHeader : Option String) (body : String)
    (db : Db) (c : Collaborators) (calls : List CallTag) :
    ∃ ex, (github_webhook_postSig eventHeader body db c calls).calls =
        calls ++ ex ∧ CallTag.hmac ∉ ex := by
  simp only [github_webhook_postSig]
  split
  · exact ⟨[], by simp, by simp⟩
  · exact classify_calls_shape ..

/-! ### Claims -/

/-- C2: when the `X-Hub-Signature-256` header is absent, signature
verification is skipped and the request is treated as valid: the run is
exactly the parse-onward pipeline, no HMAC is ever computed (no `hmac` call
tag appears), and no 401 rejection can result — for every body, secret, and
database. -/
theorem C2_absent_signature_skips_verification (secret : String)
    (eventHeader : Option String) (body : String) (db : Db) (c : Collaborators) :
    github_webhook secret none eventHeader body db c =
        github_webhook_postSig eventHeader body db c []
    ∧ CallTag.hmac ∉ (github_webhook secret none eventHeader body db c).calls
    ∧ ∀ d, (github_webhook secret none eventHeader body db c).result ≠
        .httpError 401 d := by
  refine ⟨rfl, ?_, ?_⟩
  · show CallTag.hmac ∉ (github_webhook_postSig eventHeader body db c []).calls
    obtain ⟨ex, hex, hmem⟩ := postSig_calls_shape eventHeader body db c []
    rw [hex]
    simpa using hmem
  · intro d
    show (github_webhook_postSig eventHeader body db c []).result ≠ _
    apply postSig_result_ne_401

/-- C1 counterexample: the claim "for every provided signature string
different from the expected value, verification returns false" fails for a
non-ASCII signature (e.g. a single-bit corruption of a hex character into
byte 0xFF): `hmac.compare_digest` raises `TypeError` instead of returning
false, and the handler surfaces an uncaught exception (a 500), not a 401. -/
theorem C1_counterexample :
    (⟨[Char.ofNat 255]⟩ : String) ≠ mkExpectedSignature "" [] ∧
    verify_webhook_signature [] ⟨[Char.ofNat 255]⟩ "" ≠ .ok false ∧
    (github_webhook "" (some ⟨[Char.ofNat 255]⟩) none "" dbW collabOk).result =
      .pyError "comparing strings with non-ASCII characters is not supported" := by
  refine ⟨by decide, by decide, by decide⟩

/-- C1 (amended): for every body and secret, verification accepts exactly the
canonical signature `"sha256=" ++ hex(HMAC-SHA256(secret, body))`: it returns
true on it, returns false on every *ASCII* signature string different from it
(a non-ASCII signature instead raises `TypeError`), and whenever a non-empty
signature header is present and verification returns false the handler
rejects the request with HTTP 401 `"Invalid signature"`. -/
theorem C1_signature_verification (body : List Nat) (secret s : String)
    (eventHeader : Option String) (bodyStr : String) (db : Db) (c : Collaborators)
    (hascii : isAsciiStr s = true) :
    verify_webhook_signature body (mkExpectedSignature secret body) secret = .ok true
    ∧ (s ≠ mkExpectedSignature secret body →
        verify_webhook_signature body s secret = .ok false)
    ∧ (s ≠ "" →
        verify_webhook_signature (utf8Bytes bodyStr) s secret = .ok false →
        github_webhook secret (some s) eventHeader bodyStr db c =
          ⟨.httpError 401 "Invalid signature", db, [.hmac]⟩) := by
  have hexp := mkExpectedSignature_ascii secret body
  refine ⟨?_, ?_, ?_⟩
  · simp [verify_webhook_signature, compare_digest, hexp]
  · intro hne
    simp only [verify_webhook_signature, compare_digest, hexp, hascii,
      Bool.and_self, if_true]
    simp [beq_eq_false_iff_ne, Ne.symm hne]
  · intro hne hver
    simp only [github_webhook, if_neg hne, hver]

/-- C1 witness instance. -/
theorem C1_signature_verification_witness :
    verify_webhook_signature [] (mkExpectedSignature "" []) "" = .ok true
    ∧ verify_webhook_signature [] "x" "" = .ok false
    ∧ github_webhook "" (some "x") none "" dbW collabOk =
        ⟨.httpError 401 "Invalid signature", dbW, [.hmac]⟩ := by
  obtain ⟨h1, h2, h3⟩ :=
    C1_signature_verification [] "" "x" none "" dbW collabOk (by decide)
  exact ⟨h1, h2 (by decide), h3 (by decide) (by decide)⟩

theorem commitFiles_commitJson (ce : CommitEntry) :
    commitFiles (commitJson ce) = .ok ((ce.modified ++ ce.added).map .str) := by
  have h : commitFiles (commitJson ce) =
      .ok (ce.modified.map .str ++ ce.added.map .str) := rfl
  rw [h, List.map_append]

theorem collectModifiedFiles_commitJson (commits : List CommitEntry) :
    collectModifiedFiles (commits.map commitJson) =
      .ok ((commits.flatMap (fun ce => ce.modified ++ ce.added)).map .str) := by
  induction commits with
  | nil => rfl
  | cons ce rest ih =>
    rw [List.map_cons, collectModifiedFiles, commitFiles_commitJson, ih]
    simp only [bind, Except.bind]
    simp [List.map_append, List.append_assoc, pure, Except.pure]

theorem readmeModifiedCheck_strs (files : List String) :
    readmeModifiedCheck (files.map .str) =
      .ok (files.any (fun f => listContains "readme".data (pyLower f).data)) := by
  induction files with
  | nil => rfl
  | cons f rest ih =>
    rw [List.map_cons, readmeModifiedCheck, List.any_cons]
    by_cases h : listContains "readme".data (pyLower f).data = true
    · simp [h]
    · simp only [Bool.not_eq_true] at h
      simp [h, ih]

/-- C4: the completion gate is an exact case-sensitive substring search for
`"Completed"`: it fires exactly on texts with `"Completed"` as an infix, is
false on any text without it (in particular one containing only lowercase
`"completed"`), is false on the empty string, and when the fetched README
lacks the marker the accepted run answers `completed_keyword: false` having
made only the README fetch — the orchestrator is never invoked. -/
theorem C4_completion_marker (t u : String) (payload : Json) (repo : RepoRec)
    (db : Db) (c : Collaborators) (calls : List CallTag) (tok : String)
    (hsub : "Completed".data <:+: t.data)
    (hnot : ¬ "Completed".data <:+: u.data)
    (hmod : readme_modified_of payload = .ok true)
    (htok : pyTruthyOptStr repo.user.github_access_token = true)
    (hdec : c.decrypt (repo.user.github_access_token.getD "") = .ok tok)
    (hreadme : get_repo_readme c.readmeHttp c.readmeB64 = u) :
    isCompleted t = true ∧ isCompleted u = false ∧ isCompleted "" = false
    ∧ github_webhook_afterLog payload repo db c calls =
        ⟨.ok .completedKeywordFalse, db, calls ++ [.readmeFetch]⟩ := by
  have h2 : isCompleted u = false := by
    rw [isCompleted, Bool.eq_false_iff]
    intro h
    exact hnot ((listContains_correct _ _).mp h)
  refine ⟨(listContains_correct _ _).mpr hsub, h2, by decide, ?_⟩
  rw [github_webhook_afterLog, hmod]
  rw [github_webhook_tryBlock, htok]
  simp only [Bool.not_true, Bool.false_eq_true, if_false, hdec, hreadme, h2,
    Bool.not_false, if_true]

/-- C4 witness instance. -/
theorem C4_completion_marker_witness :
    isCompleted "Project Completed" = true ∧ isCompleted "all completed" = false
    ∧ isCompleted "" = false
    ∧ github_webhook_afterLog payloadReadme repoW dbW collabNoMarker [] =
        ⟨.ok .completedKeywordFalse, dbW, [CallTag.readmeFetch]⟩ := by
  exact C4_completion_marker "Project Completed" "all completed" payloadReadme repoW
    dbW collabNoMarker [] "tok" (by decide) (by decide) (by decide) (by decide)
    rfl rfl

/-- C5: over the payload's commit list, the touched-file list is exactly the
`modified` and `added` paths of every commit entry (membership-wise, their
union; an absent commit list yields the empty collection); the README-touch
flag is true iff some touched path case-insensitively contains `"readme"`;
and when the flag is false the accepted run stops with
`readme_modified: false`, its database and collaborator-call list untouched
(no further network call). -/
theorem C5_files_touched_readme_detector (commits : List CommitEntry)
    (payload payload0 : Json) (repo : RepoRec) (db : Db) (c : Collaborators)
    (calls : List CallTag)
    (hc : payload.getField "commits" = some (.arr (commits.map commitJson)))
    (h0 : payload0.getField "commits" = none) :
    collectModifiedFiles (commits.map commitJson) =
        .ok (((commits.flatMap (fun ce => ce.modified ++ ce.added))).map .str)
    ∧ (∀ x, x ∈ commits.flatMap (fun ce => ce.modified ++ ce.added) ↔
        ∃ ce ∈ commits, x ∈ ce.modified ∨ x ∈ ce.added)
    ∧ readme_modified_of payload =
        .ok ((commits.flatMap (fun ce => ce.modified ++ ce.added)).any
          (fun f => listContains "readme".data (pyLower f).data))
    ∧ (readme_modified_of payload = .ok true ↔
        ∃ f ∈ commits.flatMap (fun ce => ce.modified ++ ce.added),
          "readme".data <:+: (pyLower f).data)
    ∧ ((commits.flatMap (fun ce => ce.modified ++ ce.added)).any
          (fun f => listContains "readme".data (pyLower f).data) = false →
        github_webhook_afterLog payload repo db c calls =
          ⟨.ok .readmeNotModified, db, calls⟩)
    ∧ readme_modified_of payload0 = .ok false := by
  have hmod : readme_modified_of payload =
      .ok ((commits.flatMap (fun ce => ce.modified ++ ce.added)).any
        (fun f => listContains "readme".data (pyLower f).data)) := by
    rw [readme_modified_of, hc]
    simp only [Option.getD_some, pyIterable, bind, Except.bind,
      collectModifiedFiles_commitJson, readmeModifiedCheck_strs]
  refine ⟨collectModifiedFiles_commitJson commits, ?_, hmod, ?_, ?_, ?_⟩
  · intro x
    simp [List.mem_flatMap, List.mem_append]
  · rw [hmod]
    simp only [Except.ok.injEq, List.any_eq_true, listContains_correct]
  · intro hfalse
    rw [github_webhook_afterLog, hmod, hfalse]
  · rw [readme_modified_of, h0]
    rfl

/-- C5 witness instance. -/
theorem C5_files_touched_readme_detector_witness :
    collectModifiedFiles (commitsW.map commitJson) =
        .ok ((commitsW.flatMap (fun ce => ce.modified ++ ce.added)).map .str)
    ∧ (∀ x, x ∈ commitsW.flatMap (fun ce => ce.modified ++ ce.added) ↔
        ∃ ce ∈ commitsW, x ∈ ce.modified ∨ x ∈ ce.added)
    ∧ readme_modified_of payloadReadme =
        .ok ((commitsW.flatMap (fun ce => ce.modified ++ ce.added)).any
          (fun f => listContains "readme".data (pyLower f).data))
    ∧ (readme_modified_of payloadReadme = .ok true ↔
        ∃ f ∈ commitsW.flatMap (fun ce => ce.modified ++ ce.added),
          "readme".data <:+: (pyLower f).data)
    ∧ ((commitsW.flatMap (fun ce => ce.modified ++ ce.added)).any
          (fun f => listContains "readme".data (pyLower f).data) = false →
        github_webhook_afterLog payloadReadme repoW dbW collabOk [] =
          ⟨.ok .readmeNotModified, dbW, []⟩)
    ∧ readme_modified_of payloadNoCommits = .ok false :=
  C5_files_touched_readme_detector commitsW payloadReadme payloadNoCommits repoW dbW
    collabOk [] rfl rfl

/-- C6: for a push payload whose `repository.full_name` or `repository.id` is
absent or empty, classification raises HTTP 400 `"Missing repository
information"` (also when the whole `repository` object is absent); when both
are present and non-empty, the run proceeds exactly to the
monitored-repository lookup. -/
theorem C6_missing_repository_info (p1 p2 p3 p0 : Json)
    (k1 k2 k3 k0 r1 r2 r3 : List (String × Json)) (db : Db) (c : Collaborators)
    (calls : List CallTag) (fn : String) (v : Json)
    (hobj1 : p1 = .obj k1) (hrepo1 : p1.getField "repository" = some (.obj r1))
    (hfn1 : (Json.obj r1).getField "full_name" = none ∨
      (Json.obj r1).getField "full_name" = some (.str ""))
    (hobj2 : p2 = .obj k2) (hrepo2 : p2.getField "repository" = some (.obj r2))
    (hid2 : (Json.obj r2).getField "id" = none ∨
      (Json.obj r2).getField "id" = some (.str ""))
    (hobj3 : p3 = .obj k3) (hrepo3 : p3.getField "repository" = some (.obj r3))
    (hfn3 : (Json.obj r3).getField "full_name" = some (.str fn)) (hne : fn ≠ "")
    (hid3 : (Json.obj r3).getField "id" = some v) (hids : pyStr v ≠ "")
    (hobj0 : p0 = .obj k0) (hrepo0 : p0.getField "repository" = none) :
    github_webhook_classify (some "push") p1 db c calls =
        ⟨.httpError 400 "Missing repository information", db, calls⟩
    ∧ github_webhook_classify (some "push") p2 db c calls =
        ⟨.httpError 400 "Missing repository information", db, calls⟩
    ∧ github_webhook_classify (some "push") p3 db c calls =
        github_webhook_lookup p3 (pyStr v) "push" db c calls
    ∧ github_webhook_classify (some "push") p0 db c calls =
        ⟨.httpError 400 "Missing repository information", db, calls⟩ := by
  subst hobj1
  subst hobj2
  subst hobj3
  subst hobj0
  refine ⟨?_, ?_, ?_, ?_⟩
  · rcases hfn1 with hfn | hfn <;>
      simp [github_webhook_classify, hrepo1, hfn, Json.truthy]
  · rcases hid2 with hid | hid <;>
      simp [github_webhook_classify, hrepo2, hid, pyStr]
  · simp [github_webhook_classify, hrepo3, hfn3, hid3, Json.truthy, hne, hids]
  · simp only [github_webhook_classify]
    rw [hrepo0]
    simp [Json.getField, Json.truthy]

/-- C6 witness instance. -/
theorem C6_missing_repository_info_witness :
    github_webhook_classify (some "push") p1C6 dbW collabOk [] =
        ⟨.httpError 400 "Missing repository information", dbW, []⟩
    ∧ github_webhook_classify (some "push") p2C6 dbW collabOk [] =
        ⟨.httpError 400 "Missing repository information", dbW, []⟩
    ∧ github_webhook_classify (some "push") payloadReadme dbW collabOk [] =
        github_webhook_lookup payloadReadme (pyStr (.num 123)) "push" dbW collabOk []
    ∧ github_webhook_classify (some "push") payloadNoCommits dbW collabOk [] =
        ⟨.httpError 400 "Missing repository information", dbW, []⟩ :=
  C6_missing_repository_info p1C6 p2C6 payloadReadme payloadNoCommits
    _ _ _ _ _ _ _ dbW collabOk [] "u/r" (.num 123)
    rfl rfl (Or.inl rfl) rfl rfl (Or.inl rfl) rfl rfl rfl (by decide) rfl
    (by decide) rfl rfl

/-- C8: a push event whose repository id has no monitored registry entry is
answered with the ignored-status 200 body, the database is untouched (no
event-log row), and the run makes no README fetch and no metadata fetch — in
particular a run arriving with no prior collaborator calls ends with zero
collaborator calls. -/
theorem C8_not_monitored_short_circuit (payload : Json) (gid et : String)
    (db : Db) (c : Collaborators) (calls : List CallTag)
    (hfind : findMonitored db gid = none) :
    github_webhook_lookup payload gid et db c calls =
        ⟨.ok .ignoredNotMonitored, db, calls⟩
    ∧ (github_webhook_lookup payload gid et db c calls).db.events = db.events
    ∧ (CallTag.readmeFetch ∉ calls →
        CallTag.readmeFetch ∉ (github_webhook_lookup payload gid et db c calls).calls)
    ∧ (CallTag.metadataFetch ∉ calls →
        CallTag.metadataFetch ∉ (github_webhook_lookup payload gid et db c calls).calls)
    ∧ (github_webhook_lookup payload gid et db c []).calls = [] := by
  have h : github_webhook_lookup payload gid et db c calls =
      ⟨.ok .ignoredNotMonitored, db, calls⟩ := by
    rw [github_webhook_lookup, hfind]
  have h0 : github_webhook_lookup payload gid et db c [] =
      ⟨.ok .ignoredNotMonitored, db, []⟩ := by
    rw [github_webhook_lookup, hfind]
  refine ⟨h, by rw [h], by rw [h]; exact fun hm => hm, by rw [h]; exact fun hm => hm,
    by rw [h0]⟩

/-- C8 witness instance. -/
theorem C8_not_monitored_short_circuit_witness :
    github_webhook_lookup payloadReadme "123" "push" dbEmpty collabOk [] =
        ⟨.ok .ignoredNotMonitored, dbEmpty, []⟩
    ∧ (github_webhook_lookup payloadReadme "123" "push" dbEmpty collabOk []).db.events =
        dbEmpty.events
    ∧ (CallTag.readmeFetch ∉ ([] : List CallTag) →
        CallTag.readmeFetch ∉
          (github_webhook_lookup payloadReadme "123" "push" dbEmpty collabOk []).calls)
    ∧ (CallTag.metadataFetch ∉ ([] : List CallTag) →
        CallTag.metadataFetch ∉
          (github_webhook_lookup payloadReadme "123" "push" dbEmpty collabOk []).calls)
    ∧ (github_webhook_lookup payloadReadme "123" "push" dbEmpty collabOk []).calls = [] :=
  C8_not_monitored_short_circuit payloadReadme "123" "push" dbEmpty collabOk [] rfl

/-- C9: `get_repo_readme` fails soft: whatever the token and repository, if
the underlying HTTP request errors, the response lacks a string `"content"`
field, or the content decoding errors, it returns the empty string rather
than propagating; consequently a failed README fetch inside an accepted run
surfaces as the 200 `completed_keyword: false` response, not as a
`status: "error"` response. -/
theorem C9_readme_fetch_fails_soft (e : String) (resp2 resp3 : Json) (s : String)
    (b64 : String → Except String String) (payload : Json) (repo : RepoRec)
    (db : Db) (c : Collaborators) (calls : List CallTag) (tok : String)
    (hhttp : c.readmeHttp = .error e)
    (hb64 : b64 s = .error e)
    (hc2 : resp2.getField "content" = none)
    (hc3 : resp3.getField "content" = some (.str s))
    (hmod : readme_modified_of payload = .ok true)
    (htok : pyTruthyOptStr repo.user.github_access_token = true)
    (hdec : c.decrypt (repo.user.github_access_token.getD "") = .ok tok) :
    get_repo_readme (.error e) b64 = ""
    ∧ get_repo_readme (.ok resp2) b64 = ""
    ∧ get_repo_readme (.ok resp3) b64 = ""
    ∧ github_webhook_afterLog payload repo db c calls =
        ⟨.ok .completedKeywordFalse, db, calls ++ [.readmeFetch]⟩ := by
  refine ⟨rfl, ?_, ?_, ?_⟩
  · rw [get_repo_readme, hc2]
  · rw [get_repo_readme, hc3]
    simp [hb64]
  · have hempty : get_repo_readme c.readmeHttp c.readmeB64 = "" := by
      rw [hhttp, get_repo_readme]
    rw [github_webhook_afterLog, hmod]
    rw [github_webhook_tryBlock, htok]
    simp only [Bool.not_true, Bool.false_eq_true, if_false, hdec, hempty, isCompleted,
      listContains, List.isPrefixOf, Bool.or_false, Bool.not_false, if_true]

/-- C9 witness instance. -/
theorem C9_readme_fetch_fails_soft_witness :
    get_repo_readme (.error "http boom") collabHttpFail.readmeB64 = ""
    ∧ get_repo_readme (.ok (.obj [])) collabHttpFail.readmeB64 = ""
    ∧ get_repo_readme (.ok (.obj [("content", .str "zz")])) collabHttpFail.readmeB64 = ""
    ∧ github_webhook_afterLog payloadReadme repoW dbW collabHttpFail [] =
        ⟨.ok .completedKeywordFalse, dbW, [CallTag.readmeFetch]⟩ :=
  C9_readme_fetch_fails_soft "http boom" (.obj []) (.obj [("content", .str "zz")])
    "zz" collabHttpFail.readmeB64 payloadReadme repoW dbW collabHttpFail [] "tok"
    rfl rfl rfl rfl (by decide) (by decide) rfl

/-- C3: in an accepted run (event row already appended), an exception raised
after classification — from token decryption, or from metadata fetch or
summarization inside the orchestrator — is caught and answered with the
HTTP 200 body `{status: "error", error: <message>}` (`HandlerResult.ok`),
and the event-log rows persisted before the failure, in particular the row
appended earlier in the same run, remain unchanged. -/
theorem C3_soft_fail_containment (payload : Json) (repo : RepoRec) (db : Db)
    (c : Collaborators) (calls : List CallTag) (e : String)
    (es : List WebhookEventRec) (ev : WebhookEventRec)
    (hev : db.events = es ++ [ev])
    (hmod : readme_modified_of payload = .ok true)
    (htok : pyTruthyOptStr repo.user.github_access_token = true)
    (herr : c.decrypt (repo.user.github_access_token.getD "") = .error e
        ∨ ((∃ tok, c.decrypt (repo.user.github_access_token.getD "") = .ok tok)
           ∧ isCompleted (get_repo_readme c.readmeHttp c.readmeB64) = true
           ∧ (process_completed_project c).1 = .error e)) :
    (github_webhook_afterLog payload repo db c calls).result = .ok (.errorMsg e)
    ∧ (github_webhook_afterLog payload repo db c calls).db.events = es ++ [ev] := by
  have hdb := afterLog_db_eq payload repo db c calls
  refine ⟨?_, by rw [hdb, hev]⟩
  rw [github_webhook_afterLog, hmod]
  rw [github_webhook_tryBlock, htok]
  rcases herr with hdec | ⟨⟨tok, hdec⟩, hcomp, hpcp⟩
  · simp [hdec]
  · rcases hp : process_completed_project c with ⟨r, pc⟩
    rw [hp] at hpcp
    simp only at hpcp
    subst hpcp
    simp [hdec, hcomp, hp]

/-- C3 witness instance. -/
theorem C3_soft_fail_containment_witness :
    (github_webhook_afterLog payloadReadme repoW dbWithEvent collabDecryptFail []).result =
        .ok (.errorMsg "decrypt boom")
    ∧ (github_webhook_afterLog payloadReadme repoW dbWithEvent collabDecryptFail []).db.events =
        [] ++ [evW] :=
  C3_soft_fail_containment payloadReadme repoW dbWithEvent collabDecryptFail []
    "decrypt boom" [] evW rfl (by decide) (by decide) (Or.inl rfl)

/-- C7 counterexample: the stored payload is `json.dumps(json.loads(body))`,
not the inbound bytes: for a monitored-repository push whose raw body carries
a trailing space, exactly one event row is appended, but its `payload` column
differs byte-for-byte from the inbound body (the re-serialization drops the
trailing whitespace). -/
theorem C7_counterexample :
    (github_webhook "" none (some "push") bodyC7 dbW collabOk).db.events =
        [⟨7, "push", storedC7, false⟩]
    ∧ storedC7 ≠ bodyC7 := by
  exact ⟨by decide, by decide⟩

/-- C7 (amended): on every accepted push for a monitored repository, before
any README-touch analysis or collaborator call, exactly one `WebhookEvent`
row is appended, keyed to the matched repository, with
`event_type = "push"` and `payload` the `json.dumps` re-serialization of the
parsed request payload (semantically the inbound body, but not byte-for-byte
equal to it in general). -/
theorem C7_event_log_append (payload : Json) (gid : String) (db : Db)
    (c : Collaborators) (calls : List CallTag) (repo : RepoRec)
    (hfind : findMonitored db gid = some repo) :
    github_webhook_lookup payload gid "push" db c calls =
      github_webhook_afterLog payload repo
        ⟨db.repos, db.events ++ [⟨repo.id, "push", json_dumps payload, false⟩]⟩ c calls
    ∧ (github_webhook_lookup payload gid "push" db c calls).db.events =
        db.events ++ [⟨repo.id, "push", json_dumps payload, false⟩] := by
  have h1 : github_webhook_lookup payload gid "push" db c calls =
      github_webhook_afterLog payload repo
        ⟨db.repos, db.events ++ [⟨repo.id, "push", json_dumps payload, false⟩]⟩ c calls := by
    rw [github_webhook_lookup, hfind]
  refine ⟨h1, ?_⟩
  rw [h1, afterLog_db_eq]

/-- C7 witness instance. -/
theorem C7_event_log_append_witness :
    github_webhook_lookup payloadReadme "123" "push" dbW collabOk [] =
      github_webhook_afterLog payloadReadme repoW
        ⟨dbW.repos, dbW.events ++ [⟨repoW.id, "push", json_dumps payloadReadme, false⟩]⟩
        collabOk []
    ∧ (github_webhook_lookup payloadReadme "123" "push" dbW collabOk []).db.events =
        dbW.events ++ [⟨repoW.id, "push", json_dumps payloadReadme, false⟩] :=
  C7_event_log_append payloadReadme "123" dbW collabOk [] repoW rfl

/-- C10: on every run, whatever the headers, body, database, and collaborator
behaviour, the repository registry is unchanged and the event log is only
appended to, and every appended row has `processed = false` — no operation
of the pipeline ever sets it to true or mutates an existing row. -/
theorem C10_event_rows_processed_false (secret : String)
    (sigHeader eventHeader : Option String) (body : String) (db : Db)
    (c : Collaborators) :
    (github_webhook secret sigHeader eventHeader body db c).db.repos = db.repos
    ∧ ∃ new, (github_webhook secret sigHeader eventHeader body db c).db.events =
        db.events ++ new ∧ ∀ ev ∈ new, ev.processed = false := by
  cases sigHeader with
  | none => exact postSig_db_shape eventHeader body db c []
  | some sig =>
    simp only [github_webhook]
    split
    · exact postSig_db_shape ..
    · split
      · exact ⟨rfl, [], by simp, by simp⟩
      · exact ⟨rfl, [], by simp, by simp⟩
      · exact postSig_db_shape ..
